import Mathlib

/-!
Shallow embedding of the draft recommendation and analytics engine from
`app/frontend/streamlit/components/draft_logic.py`.

Conventions of the embedding:
* Python floats are modelled as rationals (`ℚ`); every arithmetic threshold
  in the source is far from any binary floating-point rounding boundary that
  could change a comparison on the inputs considered here.
* Python lists are Lean `List`s; the dict `team_rosters` (keys `1..num_teams`)
  is a total function `ℕ → List String` that is `[]` outside its domain; the
  dict `all_team_rosters` is an association list preserving insertion order.
* `None` arguments are `Option.none`; Python truthiness of the optional
  arguments is modelled explicitly where the source branches on it.
* Python raising an exception has no counterpart in a branch modelled here:
  every modelled operation of the source is total (the source methods contain
  no `raise` and no validation), which is itself a fact checked against the
  source.
* Presentation-only string fields of result dictionaries (colors, emojis,
  prose messages, ordinal rank suffixes) are not modelled; every numeric,
  status, list-structure and ordering field is.
-/

namespace DraftLogic

/-- The nine fantasy categories, in the iteration order of
`CategoryAnalyzer.CATEGORIES` (a Python dict preserves insertion order). -/
inductive Category where
  | points
  | rebounds
  | assists
  | steals
  | blocks
  | turnovers
  | fg_pct
  | ft_pct
  | three_pm
deriving DecidableEq, Repr

/-- Keys of `CategoryAnalyzer.CATEGORIES`, in dict insertion order. -/
def allCategories : List Category :=
  [.points, .rebounds, .assists, .steals, .blocks, .turnovers, .fg_pct, .ft_pct, .three_pm]

/-- True exactly for turnovers: `CATEGORIES[z_col]['good_direction'] == 'low'`. -/
def goodDirectionLow : Category → Bool
  | .turnovers => true
  | _ => false

/-- The `'strong'` / `'average'` / `'weak'` status strings. -/
inductive Status where
  | strong
  | average
  | weak
deriving DecidableEq, Repr

/-- The `'high'` / `'medium'` / `'low'` / `'none'` confidence strings. -/
inductive Confidence where
  | high
  | medium
  | low
  | nocall
deriving DecidableEq, Repr

/-- One row of the player pool dataframe.  All z-score columns are present and
non-null (`pd.notna` checks in the source are then always true). -/
structure PlayerRecord where
  player_id : String
  name : String
  z_points : ℚ
  z_rebounds : ℚ
  z_assists : ℚ
  z_steals : ℚ
  z_blocks : ℚ
  z_turnovers : ℚ
  z_fg_pct : ℚ
  z_ft_pct : ℚ
  z_three_pm : ℚ
  total_z_score : ℚ
deriving DecidableEq, Repr

/-- Column access `player[z_col]`. -/
def zscore (p : PlayerRecord) : Category → ℚ
  | .points => p.z_points
  | .rebounds => p.z_rebounds
  | .assists => p.z_assists
  | .steals => p.z_steals
  | .blocks => p.z_blocks
  | .turnovers => p.z_turnovers
  | .fg_pct => p.z_fg_pct
  | .ft_pct => p.z_ft_pct
  | .three_pm => p.z_three_pm

/-- Model of `self.player_pool_df[self.player_pool_df["player_id"].isin(roster_ids)]`:
the pool rows whose id is in the roster, in pool order. -/
def rosterFilter (pool : List PlayerRecord) (roster_ids : List String) : List PlayerRecord :=
  pool.filter fun p => roster_ids.contains p.player_id

/-- Team total in one category: `roster_df[z_col].sum()`. -/
def sumZ (pool : List PlayerRecord) (roster_ids : List String) (c : Category) : ℚ :=
  ((rosterFilter pool roster_ids).map fun p => zscore p c).sum

/-- Stable insertion used to model CPython sorting: a new element is placed
before the first element it is strictly less-than, hence after all elements
its key ties with. -/
def insertStable {α : Type} (lt : α → α → Bool) (a : α) : List α → List α
  | [] => [a]
  | b :: bs => if lt a b then a :: b :: bs else b :: insertStable lt a bs

/-- Model of Python `sorted(l, key=..., reverse=...)` (a stable sort), with
`lt a b` meaning "a must be strictly before b". -/
def pySort {α : Type} (lt : α → α → Bool) (l : List α) : List α :=
  l.foldl (fun acc a => insertStable lt a acc) []

/-- One category entry of `_calculate_team_rankings`: `team_totals` for each
team of the `all_team_rosters` dict, in dict (insertion) order.  In the source
an empty roster or a roster matching no pool row contributes `0`, which is the
sum of the empty selection, so every branch is the plain sum. -/
def teamTotalsFor (pool : List PlayerRecord) (rosters : List (ℕ × List String))
    (c : Category) : List (ℕ × ℚ) :=
  rosters.map fun tr => (tr.1, sumZ pool tr.2 c)

/-- Model of `sorted(team_totals.items(), key=lambda x: x[1], reverse=good_direction=='high')`. -/
def sortedTeams (pool : List PlayerRecord) (rosters : List (ℕ × List String))
    (c : Category) : List (ℕ × ℚ) :=
  if goodDirectionLow c then
    pySort (fun a b => decide (a.2 < b.2)) (teamTotalsFor pool rosters c)
  else
    pySort (fun a b => decide (b.2 < a.2)) (teamTotalsFor pool rosters c)

/-- Model of `rankings.get(team_id)`: 1-based position of the team in the sorted list
(`enumerate(sorted_teams, 1)`), `None` when the team is not a key. -/
def rankOf (pool : List PlayerRecord) (rosters : List (ℕ × List String))
    (c : Category) (team_id : ℕ) : Option ℕ :=
  ((sortedTeams pool rosters c).findIdx? fun tr => tr.1 == team_id).map (· + 1)

/-- Model of `total_teams`: number of dict entries with a non-empty roster list. -/
def totalTeamsWithPlayers (rosters : List (ℕ × List String)) : ℕ :=
  (rosters.filter fun tr => !tr.2.isEmpty).length

/-- Python truthiness of `if all_team_rosters and user_team_id:` —
`None`/empty dict and `None`/`0` are falsy. -/
def hasLeagueContext (ctx : Option (List (ℕ × List String))) (uid : Option ℕ) : Bool :=
  match ctx, uid with
  | some rosters, some u => !rosters.isEmpty && u != 0
  | _, _ => false

/-- Model of `_get_category_status_relative(rank, total_teams, good_direction)` — the
`good_direction` argument is accepted and ignored by the source. -/
def statusRelative (rank : Option ℕ) (total_teams : ℕ) (good_low : Bool) : Status :=
  match rank with
  | none => .average
  | some r =>
    if total_teams ≤ 1 then .average
    else
      let percentile : ℚ := ((total_teams : ℚ) - (r : ℚ) + 1) / (total_teams : ℚ)
      if 67 / 100 ≤ percentile then .strong
      else if 33 / 100 ≤ percentile then .average
      else .weak

/-- Model of `_get_category_status(team_total, team_avg, good_direction)` — the legacy
absolute-threshold classifier; `team_avg` is accepted and ignored.  This method
exists in the source but is never called by `analyze_team_categories`. -/
def categoryStatusLegacy (team_total team_avg : ℚ) (good_low : Bool) : Status :=
  if good_low then
    if team_total ≤ -2 then .strong
    else if team_total ≤ 0 then .average
    else .weak
  else
    if 3 ≤ team_total then .strong
    else if 0 ≤ team_total then .average
    else .weak

/-- The per-category fields of the `analyze_team_categories` result that the
claims are about (presentation strings are not modelled). -/
structure CategoryData where
  team_total : ℚ
  team_avg : ℚ
  status : Status
  rank : Option ℕ
  total_teams : ℕ
deriving DecidableEq, Repr

/-- Entry of `_get_empty_analysis()` for one category. -/
def emptyCategoryData : CategoryData where
  team_total := 0
  team_avg := 0
  status := .average
  rank := none
  total_teams := 1

/-- Model of `analyze_team_categories(roster_ids, all_team_rosters, user_team_id)[z_col]`. -/
def categoryData (pool : List PlayerRecord) (roster_ids : List String)
    (ctx : Option (List (ℕ × List String))) (uid : Option ℕ) (c : Category) : CategoryData :=
  let roster_df := rosterFilter pool roster_ids
  if roster_ids.isEmpty || roster_df.isEmpty then emptyCategoryData
  else
    let team_total := (roster_df.map fun p => zscore p c).sum
    let team_avg := team_total / (roster_df.length : ℚ)
    if hasLeagueContext ctx uid then
      let rosters := ctx.getD []
      let rank := rankOf pool rosters c (uid.getD 0)
      let total_teams := totalTeamsWithPlayers rosters
      { team_total := team_total
        team_avg := team_avg
        status := statusRelative rank total_teams (goodDirectionLow c)
        rank := rank
        total_teams := total_teams }
    else
      { team_total := team_total
        team_avg := team_avg
        status := statusRelative none 1 (goodDirectionLow c)
        rank := none
        total_teams := 1 }

/-- Model of `get_priority_needs`: the categories whose status is weak, in dict order. -/
def get_priority_needs (pool : List PlayerRecord) (roster_ids : List String)
    (ctx : Option (List (ℕ × List String))) (uid : Option ℕ) : List Category :=
  allCategories.filter fun c => decide ((categoryData pool roster_ids ctx uid c).status = .weak)

/-- One entry of the `punt_candidates` list (presentation strings omitted). -/
structure PuntCandidate where
  category : Category
  confidence : Confidence
  team_total : ℚ
  rank : Option ℕ
deriving DecidableEq, Repr

/-- Python truthiness of `if team_rank ...`: `None` and `0` are falsy. -/
def rankTruthy : Option ℕ → Bool
  | none => false
  | some r => r != 0

/-- The confidence assigned to one category by the criteria chain of
`detect_punt_strategies` (criteria 1–5), `none` when the category is not a
punt candidate.  The chain shape mirrors the source: criteria 3–5 are `elif`
arms of the outer `if team_rank and total_teams >= 6`. -/
def puntConfidenceFor (data : CategoryData) (roster_df : List PlayerRecord)
    (c : Category) : Option Confidence :=
  if rankTruthy data.rank && decide (6 ≤ data.total_teams) then
    let r := data.rank.getD 0
    if decide ((data.total_teams : ℚ) * (80 / 100) ≤ (r : ℚ)) && decide (data.team_total < -1) then
      some .high
    else if decide (r = data.total_teams) && decide (data.team_total < -2) then
      some .medium
    else none
  else if !goodDirectionLow c && decide (data.team_total < -4) then
    some .medium
  else if goodDirectionLow c && decide (4 < data.team_total) then
    some .medium
  else if (c == .fg_pct || c == .ft_pct) && decide (6 ≤ roster_df.length) then
    let poor_performers := (roster_df.filter fun p => decide (zscore p c < -1)).length
    if decide ((roster_df.length : ℚ) * (75 / 100) ≤ (poor_performers : ℚ)) then
      some .medium
    else none
  else none

/-- The unsorted `punt_candidates` list, built over categories in dict order. -/
def puntCandidatesRaw (pool : List PlayerRecord) (roster_ids : List String)
    (ctx : Option (List (ℕ × List String))) (uid : Option ℕ) : List PuntCandidate :=
  allCategories.filterMap fun c =>
    let data := categoryData pool roster_ids ctx uid c
    (puntConfidenceFor data (rosterFilter pool roster_ids) c).map fun conf =>
      { category := c, confidence := conf, team_total := data.team_total, rank := data.rank }

/-- Weight table `{'high': 3, 'medium': 2, 'low': 1}[confidence]` (only these occur). -/
def confWeight : Confidence → ℕ
  | .high => 3
  | .medium => 2
  | .low => 1
  | .nocall => 0

/-- Strict before-ness for
`punt_candidates.sort(key=(conf_weight, abs(total)), reverse=True)`. -/
def puntSortBefore (a b : PuntCandidate) : Bool :=
  decide (confWeight b.confidence < confWeight a.confidence
    ∨ (confWeight b.confidence = confWeight a.confidence ∧ |b.team_total| < |a.team_total|))

/-- The static per-category tips of `_generate_punt_recommendations`
(`[:3]` keeps all three). -/
def puntRecommendationTips : Category → List String
  | .ft_pct =>
    ["Target high-volume, low-FT% players (Giannis, Simmons, Drummond types)",
     "Prioritize big men who get blocks/rebounds but hurt FT%",
     "Avoid guards who rely on free throws for scoring"]
  | .fg_pct =>
    ["Target high-volume scorers regardless of efficiency",
     "Prioritize players with high usage rates and 3PM",
     "Focus on assists, steals, and counting stats over shooting %"]
  | .three_pm =>
    ["Focus on traditional big men (centers, power forwards)",
     "Target players strong in rebounds, blocks, FG%",
     "Don\x27t worry about 3-point shooting from your picks"]
  | .assists =>
    ["Target scoring-focused guards and wings",
     "Prioritize big men who contribute in other categories",
     "Focus on points, rebounds, blocks over playmaking"]
  | .steals =>
    ["Focus on big men and low-steal guards",
     "Prioritize size and interior presence",
     "Target players strong in blocks, rebounds, scoring"]
  | .blocks =>
    ["Target guards and small forwards",
     "Focus on perimeter stats (3PM, assists, steals)",
     "Don\x27t prioritize interior presence"]
  | .turnovers =>
    ["Target high-usage, high-assist players",
     "Focus on playmakers who handle the ball frequently",
     "Prioritize offensive production over ball security"]
  | .rebounds =>
    ["Target guards and perimeter players",
     "Focus on assists, steals, 3PM, and scoring",
     "Don\x27t prioritize size or interior presence"]
  | .points =>
    ["Target defensive specialists and role players",
     "Focus on efficiency stats (FG%, FT%) and defensive stats",
     "Prioritize assists, steals, blocks over scoring"]

/-- The `punt_recommendations` list: tips of the top-2 high-confidence
candidates, else tips of the first candidate when it is medium-confidence. -/
def puntRecommendationsOf (cands : List PuntCandidate) : List String :=
  let highs := cands.filter fun p => p.confidence == .high
  if !highs.isEmpty then
    ((highs.take 2).map fun p => puntRecommendationTips p.category).flatten
  else
    match cands with
    | [] => []
    | p :: _ => if p.confidence == .medium then puntRecommendationTips p.category else []

/-- The overall `strategy_confidence` computed from the candidate list. -/
def strategyConfidenceOf (cands : List PuntCandidate) : Confidence :=
  let nhigh := (cands.filter fun p => p.confidence == .high).length
  let nmedium := (cands.filter fun p => p.confidence == .medium).length
  if 2 ≤ nhigh then .high
  else if 1 ≤ nhigh && 1 ≤ nmedium then .medium
  else if 1 ≤ nhigh then .low
  else .nocall

/-- The `detect_punt_strategies` result fields the claims are about. -/
structure PuntAnalysis where
  punt_categories : List PuntCandidate
  punt_recommendations : List String
  strategy_confidence : Confidence
deriving DecidableEq, Repr

/-- Model of `detect_punt_strategies(roster_ids, all_team_rosters, user_team_id,
min_players=3)`.  With fewer than `min_players` roster entries the source
returns empty lists and — note — `'strategy_confidence': 'low'`. -/
def detect_punt_strategies (pool : List PlayerRecord) (roster_ids : List String)
    (ctx : Option (List (ℕ × List String))) (uid : Option ℕ)
    (min_players : ℕ := 3) : PuntAnalysis :=
  if roster_ids.length < min_players then
    { punt_categories := []
      punt_recommendations := []
      strategy_confidence := .low }
  else
    let cands := pySort puntSortBefore (puntCandidatesRaw pool roster_ids ctx uid)
    { punt_categories := cands
      punt_recommendations := puntRecommendationsOf cands
      strategy_confidence := strategyConfidenceOf cands }

/-- The candidate's summed positive contribution over non-punted categories
(`non_punt_strength` in `PickSuggestionEngine.get_suggestions`; the turnover
z-score is sign-flipped).  Its value does not depend on the punt category the
enclosing loop is visiting. -/
def non_punt_strength (p : PlayerRecord) (punt_categories : List Category) : ℚ :=
  (allCategories.filter fun c => !punt_categories.contains c).foldl
    (fun acc c =>
      let cat_z := if c = .turnovers then -(zscore p c) else zscore p c
      acc + max 0 cat_z) 0

/-- The punt-fit contribution to `priority_score` (lines 941–985 of the
source): `punt_bonus` is accumulated by the loop `for punt_cat in
punt_categories`, whose body re-adds the same +15/+10/+5 award on every
iteration (the loop variable is only used for the always-true presence check
`punt_cat in player and pd.notna(player[punt_cat])`). -/
def punt_fit_bonus (p : PlayerRecord) (punt_categories : List Category) : ℚ :=
  punt_categories.foldl
    (fun acc _ =>
      let s := non_punt_strength p punt_categories
      acc + (if 5 < s then 15 else if 3 < s then 10 else if 1 < s then 5 else 0)) 0

/-- The `risk_level` values of `detect_roster_construction_warnings`. -/
inductive RiskLevel where
  | high
  | medium
  | low
  | norisk
deriving DecidableEq, Repr

/-- The fold of `_calculate_team_projection` over `category_analysis.values()`:
accumulates `(category_score, strong_categories, weak_categories)`. -/
def categoryScoreFold (statuses : Category → Status) : ℚ × ℕ × ℕ :=
  allCategories.foldl
    (fun acc c =>
      match statuses c with
      | .strong => (acc.1 + 8, acc.2.1 + 1, acc.2.2)
      | .average => (acc.1 + 3, acc.2.1, acc.2.2)
      | .weak => (acc.1 + 0, acc.2.1, acc.2.2 + 1))
    (0, 0, 0)

/-- The letter-grade chain of `_calculate_team_projection`. -/
def gradeOf (final_score : ℚ) : String :=
  if 90 ≤ final_score then "A+"
  else if 85 ≤ final_score then "A"
  else if 80 ≤ final_score then "A-"
  else if 75 ≤ final_score then "B+"
  else if 70 ≤ final_score then "B"
  else if 65 ≤ final_score then "B-"
  else if 60 ≤ final_score then "C+"
  else if 55 ≤ final_score then "C"
  else if 50 ≤ final_score then "C-"
  else if 45 ≤ final_score then "D+"
  else if 40 ≤ final_score then "D"
  else if 35 ≤ final_score then "D-"
  else "F"

/-- The qualitative outlook chain of `_calculate_team_projection`. -/
def outlookOf (final_score : ℚ) : String :=
  if 85 ≤ final_score then "Championship Contender"
  else if 75 ≤ final_score then "Playoff Contender"
  else if 65 ≤ final_score then "Competitive Team"
  else if 55 ≤ final_score then "Average Team"
  else if 45 ≤ final_score then "Developing Team"
  else "Rebuilding Team"

/-- The `TeamProjection` dictionary of `_calculate_team_projection`. -/
structure TeamProjection where
  final_score : ℚ
  grade : String
  outlook : String
  strong_categories : ℕ
  weak_categories : ℕ
  category_score : ℚ
  punt_bonus : ℚ
  construction_penalty : ℚ
  strong_team_bonus : ℚ
  base_score : ℚ
deriving DecidableEq, Repr

/-- Model of `DraftAnalytics._calculate_team_projection(category_analysis,
punt_analysis, construction_warnings)`, as a function of the category
statuses, the punt `strategy_confidence` and the construction `risk_level`
(the only fields of its arguments the source reads). -/
def calculate_team_projection (statuses : Category → Status)
    (punt_confidence : Confidence) (risk_level : RiskLevel) : TeamProjection :=
  let acc := categoryScoreFold statuses
  let category_score := acc.1
  let strong_categories := acc.2.1
  let weak_categories := acc.2.2
  let punt_bonus : ℚ :=
    if punt_confidence = .high then 6
    else if punt_confidence = .medium then 3
    else 0
  let base_penalty : ℚ :=
    if risk_level = .high then 30
    else if risk_level = .medium then 20
    else if risk_level = .low then 10
    else 0
  let construction_penalty :=
    base_penalty +
      (if 6 ≤ weak_categories then 15 else if 4 ≤ weak_categories then 8 else 0)
  let strong_team_bonus : ℚ :=
    if 7 ≤ strong_categories then 10
    else if 5 ≤ strong_categories then 5
    else if 3 ≤ strong_categories then 2
    else 0
  let base_score : ℚ := 35
  let final_score :=
    max 0 (min 100 (base_score + category_score + punt_bonus + strong_team_bonus
      - construction_penalty))
  { final_score := final_score
    grade := gradeOf final_score
    outlook := outlookOf final_score
    strong_categories := strong_categories
    weak_categories := weak_categories
    category_score := category_score
    punt_bonus := punt_bonus
    construction_penalty := construction_penalty
    strong_team_bonus := strong_team_bonus
    base_score := base_score }

/-- Model of `DraftState.__init__(num_teams, draft_position, roster_size=13)`.
`team_rosters` is the dict `{i: [] for i in range(1, num_teams + 1)}`,
modelled as a total function that is `[]` everywhere. -/
structure DraftState where
  num_teams : ℕ
  draft_position : ℕ
  roster_size : ℕ
  round : ℕ
  current_pick_team : ℕ
  drafted_players : List String
  team_rosters : ℕ → List String
  user_team_id : ℕ
  draft_order : List ℕ
  complete : Bool
  status_message : String

/-- The state built by `DraftState.__init__`. -/
def DraftState.init (num_teams draft_position : ℕ) (roster_size : ℕ := 13) : DraftState where
  num_teams := num_teams
  draft_position := draft_position
  roster_size := roster_size
  round := 1
  current_pick_team := 1
  drafted_players := []
  team_rosters := fun _ => []
  user_team_id := draft_position
  draft_order := (List.range num_teams).map (· + 1)
  complete := false
  status_message := ""

/-- Model of `DraftState.advance_pick`: serpentine progression.  `idx` is
`self.draft_order.index(self.current_pick_team)` (the first index of the
current team).  The source indexes `order[idx + 1]` and `order[0]` only when
in range, which the `getD`/`headD` defaults mirror. -/
def DraftState.advance_pick (s : DraftState) : DraftState :=
  let idx := s.draft_order.indexOf s.current_pick_team
  if idx + 1 < s.draft_order.length then
    { s with current_pick_team := s.draft_order.getD (idx + 1) 0 }
  else
    let newOrder := s.draft_order.reverse
    { s with
      round := s.round + 1
      draft_order := newOrder
      current_pick_team := newOrder.headD 0 }

/-- Model of `DraftState.is_complete`: all rosters in the dict (keys `1..num_teams`)
have reached `roster_size`. -/
def DraftState.is_complete (s : DraftState) : Bool :=
  ((List.range s.num_teams).map (· + 1)).all fun t => s.roster_size ≤ (s.team_rosters t).length

/-- Model of `DraftState.draft_player(player_id, team_id, player_name="")`: appends to
the team roster and the drafted list unconditionally — the source performs no
validation and raises nothing (the repository defines no `InvalidPickError`). -/
def DraftState.draft_player (s : DraftState) (player_id : String) (team_id : ℕ)
    (player_name : String := "") : DraftState :=
  { s with
    team_rosters :=
      Function.update s.team_rosters team_id (s.team_rosters team_id ++ [player_id])
    drafted_players := s.drafted_players ++ [player_id]
    status_message :=
      if player_name ≠ "" then s!"Team {team_id} drafted {player_name}!"
      else s.status_message }

/-- The key list `1..num_teams` of the `team_rosters` dict. -/
def teamKeys (s : DraftState) : List ℕ :=
  (List.range s.num_teams).map (· + 1)

/-- Total multiplicity of one player id across all team rosters. -/
def rosterCountSum (s : DraftState) (pid : String) : ℕ :=
  ((teamKeys s).map fun t => (s.team_rosters t).count pid).sum

/-- Sum of `len(roster_i)` over the `team_rosters` dict. -/
def rosterLengthSum (s : DraftState) : ℕ :=
  ((teamKeys s).map fun t => (s.team_rosters t).length).sum

/-- States reachable from a freshly initialised draft by arbitrary
`draft_player` calls (with a team id among the dict keys, as any other team id
raises `KeyError` in the source) and `advance_pick` calls.  No freshness of
the drafted player is required: the source itself never checks it. -/
inductive Reachable : DraftState → Prop where
  | init (num_teams draft_position roster_size : ℕ) :
      Reachable (DraftState.init num_teams draft_position roster_size)
  | advance {s : DraftState} : Reachable s → Reachable s.advance_pick
  | draft {s : DraftState} (player_id : String) (team_id : ℕ) (player_name : String) :
      Reachable s → 1 ≤ team_id → team_id ≤ s.num_teams →
      Reachable (s.draft_player player_id team_id player_name)

/-- States reachable as in `Reachable`, but where every `draft_player` step
picks a player that is not yet in the global drafted list (the discipline the
caller of the source is supposed to maintain by only offering available
players). -/
inductive ReachableFresh : DraftState → Prop where
  | init (num_teams draft_position roster_size : ℕ) :
      ReachableFresh (DraftState.init num_teams draft_position roster_size)
  | advance {s : DraftState} : ReachableFresh s → ReachableFresh s.advance_pick
  | draft {s : DraftState} (player_id : String) (team_id : ℕ) (player_name : String) :
      ReachableFresh s → 1 ≤ team_id → team_id ≤ s.num_teams →
      player_id ∉ s.drafted_players →
      ReachableFresh (s.draft_player player_id team_id player_name)

lemma headD_eq_get (l : List ℕ) (d : ℕ) (h : 0 < l.length) :
    l.headD d = l.get ⟨0, h⟩ := by
  cases l with
  | nil => simp at h
  | cons a t => rfl

lemma getD_eq_get (l : List ℕ) (d : ℕ) (i : ℕ) (h : i < l.length) :
    l.getD i d = l.get ⟨i, h⟩ := by
  simp [List.getD_eq_getElem?_getD, List.getElem?_eq_getElem h]

lemma cur_eq (s : DraftState) (a b : ℕ) (ha : a < s.draft_order.length)
    (hb : b < s.draft_order.length) (hab : a = b) :
    ({ s with current_pick_team := s.draft_order.get ⟨a, ha⟩ } : DraftState)
      = { s with current_pick_team := s.draft_order.get ⟨b, hb⟩ } := by
  subst hab
  rfl

lemma advance_pick_mid (s : DraftState) (i : ℕ) (h : i + 1 < s.draft_order.length)
    (hn : s.draft_order.Nodup)
    (hc : s.current_pick_team = s.draft_order.get ⟨i, Nat.lt_of_succ_lt h⟩) :
    s.advance_pick = { s with current_pick_team := s.draft_order.get ⟨i + 1, h⟩ } := by
  have hidx : s.draft_order.indexOf s.current_pick_team = i := by
    rw [hc]; exact List.get_indexOf hn _
  unfold DraftState.advance_pick
  simp only [hidx, if_pos h]
  rw [getD_eq_get _ _ _ h]

lemma advance_pick_last (s : DraftState) (h0 : 0 < s.draft_order.length)
    (hn : s.draft_order.Nodup)
    (hc : s.current_pick_team
        = s.draft_order.get ⟨s.draft_order.length - 1, Nat.sub_lt h0 Nat.one_pos⟩) :
    s.advance_pick = { s with
      round := s.round + 1
      draft_order := s.draft_order.reverse
      current_pick_team := s.draft_order.reverse.headD 0 } := by
  have hidx : s.draft_order.indexOf s.current_pick_team = s.draft_order.length - 1 := by
    rw [hc]; exact List.get_indexOf hn _
  unfold DraftState.advance_pick
  have hlt : ¬ (s.draft_order.length - 1 + 1 < s.draft_order.length) := by omega
  simp only [hidx, if_neg hlt]

lemma iterate_within (k : ℕ) :
    ∀ (s : DraftState) (i : ℕ) (h : i + k < s.draft_order.length),
    s.draft_order.Nodup →
    s.current_pick_team = s.draft_order.get ⟨i, by omega⟩ →
    DraftState.advance_pick^[k] s
      = { s with current_pick_team := s.draft_order.get ⟨i + k, h⟩ } := by
  induction k with
  | zero =>
    intro s i h hn hc
    simp only [Function.iterate_zero, id_eq]
    rw [cur_eq s (i + 0) i h (by omega) (by omega), ← hc]
  | succ k ih =>
    intro s i h hn hc
    have h1 : i + 1 < s.draft_order.length := by omega
    rw [Function.iterate_succ_apply, advance_pick_mid s i h1 hn hc]
    have hk : i + 1 + k < s.draft_order.length := by omega
    rw [ih { s with current_pick_team := s.draft_order.get ⟨i + 1, h1⟩ } (i + 1) hk hn rfl]
    exact cur_eq s (i + 1 + k) (i + (k + 1)) hk h (by omega)

lemma iterate_flip (s : DraftState) (i : ℕ) (h : i < s.draft_order.length)
    (hn : s.draft_order.Nodup)
    (hc : s.current_pick_team = s.draft_order.get ⟨i, h⟩) :
    DraftState.advance_pick^[s.draft_order.length - i] s = { s with
      round := s.round + 1
      draft_order := s.draft_order.reverse
      current_pick_team := s.draft_order.reverse.headD 0 } := by
  have h0 : 0 < s.draft_order.length := Nat.lt_of_le_of_lt (Nat.zero_le i) h
  have hlen : s.draft_order.length - i = (s.draft_order.length - 1 - i) + 1 := by omega
  rw [hlen, Function.iterate_succ_apply']
  have hmid : i + (s.draft_order.length - 1 - i) < s.draft_order.length := by omega
  rw [iterate_within (s.draft_order.length - 1 - i) s i hmid hn hc]
  rw [cur_eq s (i + (s.draft_order.length - 1 - i)) (s.draft_order.length - 1) hmid
    (by omega) (by omega)]
  exact advance_pick_last _ h0 hn rfl

theorem iterate_two_rounds (s : DraftState) (hn : s.draft_order.Nodup)
    (hm : s.current_pick_team ∈ s.draft_order) :
    DraftState.advance_pick^[2 * s.draft_order.length] s = { s with round := s.round + 2 } := by
  have hi : s.draft_order.indexOf s.current_pick_team < s.draft_order.length :=
    List.indexOf_lt_length.2 hm
  set i := s.draft_order.indexOf s.current_pick_team with hidef
  have hc : s.current_pick_team = s.draft_order.get ⟨i, hi⟩ := (List.indexOf_get hi).symm
  have hsplit : 2 * s.draft_order.length
      = i + s.draft_order.length + (s.draft_order.length - i) := by omega
  rw [hsplit, Function.iterate_add_apply, Function.iterate_add_apply,
    iterate_flip s i hi hn hc]
  have h0 : 0 < s.draft_order.length := Nat.lt_of_le_of_lt (Nat.zero_le i) hi
  have h0r : 0 < s.draft_order.reverse.length := by simpa using h0
  have h1 := iterate_flip
    ({ s with
        round := s.round + 1
        draft_order := s.draft_order.reverse
        current_pick_team := s.draft_order.reverse.headD 0 } : DraftState)
    0 h0r (List.nodup_reverse.2 hn) (headD_eq_get _ _ h0r)
  simp only [List.length_reverse, Nat.sub_zero] at h1
  rw [h1]
  have h2 := iterate_within i
    ({ s with
        round := s.round + 1 + 1
        draft_order := s.draft_order.reverse.reverse
        current_pick_team := s.draft_order.reverse.reverse.headD 0 } : DraftState)
    0 (by simpa using hi) (by simpa using hn) (headD_eq_get _ _ (by simpa using h0))
  rw [h2]
  have hcur : (s.draft_order.reverse.reverse.get ⟨0 + i, by simpa using hi⟩)
      = s.current_pick_team := by
    rw [hc]
    simp [List.get_eq_getElem, List.reverse_reverse]
  congr 1 <;> simp [List.reverse_reverse, hcur]


lemma advance_pick_rosters (s : DraftState) : s.advance_pick.team_rosters = s.team_rosters := by
  unfold DraftState.advance_pick
  by_cases h : List.indexOf s.current_pick_team s.draft_order + 1 < s.draft_order.length <;>
    simp [h]

lemma advance_pick_drafted (s : DraftState) :
    s.advance_pick.drafted_players = s.drafted_players := by
  unfold DraftState.advance_pick
  by_cases h : List.indexOf s.current_pick_team s.draft_order + 1 < s.draft_order.length <;>
    simp [h]

lemma advance_pick_num_teams (s : DraftState) : s.advance_pick.num_teams = s.num_teams := by
  unfold DraftState.advance_pick
  by_cases h : List.indexOf s.current_pick_team s.draft_order + 1 < s.draft_order.length <;>
    simp [h]

lemma draft_player_rosters_self (s : DraftState) (pid : String) (t : ℕ) (nm : String) :
    (s.draft_player pid t nm).team_rosters t = s.team_rosters t ++ [pid] := by
  simp [DraftState.draft_player]

lemma draft_player_rosters_other (s : DraftState) (pid : String) (t u : ℕ) (nm : String)
    (h : u ≠ t) : (s.draft_player pid t nm).team_rosters u = s.team_rosters u := by
  simp [DraftState.draft_player, Function.update_noteq h]

lemma sum_map_update (l : List ℕ) (f g : ℕ → ℕ) (t d : ℕ)
    (hne : ∀ i, i ≠ t → f i = g i) (ht : f t = g t + d) :
    (l.map f).sum = (l.map g).sum + l.count t * d := by
  induction l with
  | nil => simp
  | cons a l ih =>
    rcases eq_or_ne a t with rfl | h
    · simp only [List.map_cons, List.sum_cons, ih, ht, List.count_cons_self]
      ring
    · have hcc : List.count t (a :: l) = List.count t l := by
        simp [List.count_cons, Ne.symm h]
      simp only [List.map_cons, List.sum_cons, ih, hne a h, hcc]
      ring

lemma teamKeys_nodup (s : DraftState) : (teamKeys s).Nodup :=
  (List.nodup_range _).map fun a b h => by omega

lemma mem_teamKeys (s : DraftState) (t : ℕ) :
    t ∈ teamKeys s ↔ 1 ≤ t ∧ t ≤ s.num_teams := by
  simp only [teamKeys, List.mem_map, List.mem_range]
  constructor
  · rintro ⟨i, hi, rfl⟩; omega
  · rintro ⟨h1, h2⟩; exact ⟨t - 1, by omega, by omega⟩

lemma draft_player_rosterCountSum (s : DraftState) (pid q : String) (t : ℕ) (nm : String)
    (h1 : 1 ≤ t) (h2 : t ≤ s.num_teams) :
    rosterCountSum (s.draft_player pid t nm) q
      = rosterCountSum s q + [pid].count q := by
  have hkeys : teamKeys (s.draft_player pid t nm) = teamKeys s := rfl
  have hcnt : (teamKeys s).count t = 1 :=
    List.count_eq_one_of_mem (teamKeys_nodup s) ((mem_teamKeys s t).2 ⟨h1, h2⟩)
  unfold rosterCountSum
  rw [hkeys, sum_map_update (teamKeys s)
    (fun u => ((s.draft_player pid t nm).team_rosters u).count q)
    (fun u => (s.team_rosters u).count q) t ([pid].count q)
    (fun u hu => by simp only [draft_player_rosters_other s pid t u nm hu])
    (by simp only [draft_player_rosters_self, List.count_append]), hcnt, one_mul]

lemma draft_player_rosterLengthSum (s : DraftState) (pid : String) (t : ℕ) (nm : String)
    (h1 : 1 ≤ t) (h2 : t ≤ s.num_teams) :
    rosterLengthSum (s.draft_player pid t nm) = rosterLengthSum s + 1 := by
  have hkeys : teamKeys (s.draft_player pid t nm) = teamKeys s := rfl
  have hcnt : (teamKeys s).count t = 1 :=
    List.count_eq_one_of_mem (teamKeys_nodup s) ((mem_teamKeys s t).2 ⟨h1, h2⟩)
  unfold rosterLengthSum
  rw [hkeys, sum_map_update (teamKeys s)
    (fun u => ((s.draft_player pid t nm).team_rosters u).length)
    (fun u => (s.team_rosters u).length) t 1
    (fun u hu => by simp only [draft_player_rosters_other s pid t u nm hu])
    (by simp only [draft_player_rosters_self, List.length_append, List.length_singleton]),
    hcnt, one_mul]

/-- The inductive invariant behind claim C3: multiplicities across rosters
match the drafted list, the drafted list has no duplicates, and roster sizes
sum to the drafted count. -/
def DraftInvariant (s : DraftState) : Prop :=
  (∀ q : String, rosterCountSum s q = s.drafted_players.count q)
    ∧ s.drafted_players.Nodup
    ∧ rosterLengthSum s = s.drafted_players.length

lemma draftInvariant_reachableFresh {s : DraftState} (h : ReachableFresh s) :
    DraftInvariant s := by
  induction h with
  | init n p r =>
    refine ⟨fun q => ?_, List.nodup_nil, ?_⟩
    · simp only [DraftState.init, rosterCountSum, teamKeys, List.count_nil]
      exact List.sum_eq_zero fun x hx => by simp at hx; omega
    · simp only [DraftState.init, rosterLengthSum, teamKeys, List.length_nil]
      exact List.sum_eq_zero fun x hx => by simp at hx; omega
  | advance hs ih =>
    obtain ⟨i1, i2, i3⟩ := ih
    refine ⟨fun q => ?_, ?_, ?_⟩
    · rw [show rosterCountSum _ q = rosterCountSum _ q from rfl]
      unfold rosterCountSum teamKeys
      rw [advance_pick_rosters, advance_pick_num_teams, advance_pick_drafted]
      exact i1 q
    · rw [advance_pick_drafted]; exact i2
    · unfold rosterLengthSum teamKeys
      rw [advance_pick_rosters, advance_pick_num_teams, advance_pick_drafted]
      exact i3
  | draft pid t nm hs h1 h2 hfresh ih =>
    obtain ⟨i1, i2, i3⟩ := ih
    refine ⟨fun q => ?_, ?_, ?_⟩
    · rw [draft_player_rosterCountSum _ pid q t nm h1 h2]
      simp only [DraftState.draft_player, List.count_append]
      rw [i1 q]
    · simp only [DraftState.draft_player]
      rw [List.nodup_append]
      exact ⟨i2, List.nodup_singleton pid, by simpa [List.disjoint_singleton] using hfresh⟩
    · rw [draft_player_rosterLengthSum _ pid t nm h1 h2]
      simp only [DraftState.draft_player, List.length_append]
      rw [i3]
      rfl

/-- A player with a single non-zero z-score column (points), used to build
concrete league scenarios. -/
def mkPointsPlayer (pid : String) (pts : ℚ) : PlayerRecord where
  player_id := pid
  name := pid
  z_points := pts
  z_rebounds := 0
  z_assists := 0
  z_steals := 0
  z_blocks := 0
  z_turnovers := 0
  z_fg_pct := 0
  z_ft_pct := 0
  z_three_pm := 0
  total_z_score := pts

/-- A ten-team league pool: the user team (team 1) rosters players `a`, `b`,
`c` whose points z-scores sum to `x`; teams 2–10 roster one player each with
points z-scores 2, 3, …, 10. -/
def leaguePool (x : ℚ) : List PlayerRecord :=
  [mkPointsPlayer "a" x, mkPointsPlayer "b" 0, mkPointsPlayer "c" 0,
   mkPointsPlayer "p2" 2, mkPointsPlayer "p3" 3, mkPointsPlayer "p4" 4,
   mkPointsPlayer "p5" 5, mkPointsPlayer "p6" 6, mkPointsPlayer "p7" 7,
   mkPointsPlayer "p8" 8, mkPointsPlayer "p9" 9, mkPointsPlayer "p10" 10]

/-- The user roster in the ten-team league. -/
def leagueUserRoster : List String := ["a", "b", "c"]

/-- The `all_team_rosters` dict of the ten-team league, in insertion order. -/
def leagueRosters : List (ℕ × List String) :=
  [(1, ["a", "b", "c"]), (2, ["p2"]), (3, ["p3"]), (4, ["p4"]), (5, ["p5"]),
   (6, ["p6"]), (7, ["p7"]), (8, ["p8"]), (9, ["p9"]), (10, ["p10"])]

/-- Claim C1 (counterexample): starting from a 2-team draft with `roster_size = 1`,
after team 1 drafts `p1` the player is already drafted and the team is at
capacity, yet `draft_player("p1", 1)` succeeds again and changes the state
(the drafted list becomes `[p1, p1]`): no `InvalidPickError` exists and no
input fails. -/
theorem C1_counterexample :
    "p1" ∈ ((DraftState.init 2 1 1).draft_player "p1" 1 "").drafted_players
    ∧ ((DraftState.init 2 1 1).draft_player "p1" 1 "").roster_size
        ≤ (((DraftState.init 2 1 1).draft_player "p1" 1 "").team_rosters 1).length
    ∧ (((DraftState.init 2 1 1).draft_player "p1" 1 "").draft_player "p1" 1 "").drafted_players
        = ["p1", "p1"]
    ∧ (((DraftState.init 2 1 1).draft_player "p1" 1 "").draft_player "p1" 1 "").drafted_players
        ≠ ((DraftState.init 2 1 1).draft_player "p1" 1 "").drafted_players := by
  refine ⟨by decide, by decide, by decide, by decide⟩

/-- Claim C1 (amended): `DraftState.draft_player` performs no validation and never
fails: on every input — including a player id already in the drafted list or
a team whose roster is at or above `roster_size` — it appends the player to
that team's roster and to the global drafted list. -/
theorem C1_draft_player_appends_unconditionally (s : DraftState) (pid : String)
    (tid : ℕ) (nm : String) :
    (s.draft_player pid tid nm).team_rosters tid = s.team_rosters tid ++ [pid]
    ∧ (s.draft_player pid tid nm).drafted_players = s.drafted_players ++ [pid] :=
  ⟨draft_player_rosters_self s pid tid nm, rfl⟩

/-- Claim C6 (amended): with no multi-team context (`all_team_rosters`/`user_team_id`
not supplied), `analyze_team_categories` gives every category the status
`'average'` regardless of the team totals; the absolute-threshold fallback
(`_get_category_status`) exists in the source but is never invoked. -/
theorem C6_no_context_always_average (pool : List PlayerRecord)
    (roster_ids : List String) (c : Category) :
    (categoryData pool roster_ids none none c).status = .average := by
  rcases h : (roster_ids.isEmpty || (rosterFilter pool roster_ids).isEmpty) with _ | _ <;>
    simp [categoryData, h, hasLeagueContext, statusRelative, emptyCategoryData]

/-- Claim C6 (counterexample): a single-player roster with points total `5 ≥ 3` is
classified `'average'` by the code in single-team mode, while the claimed
absolute thresholds (the source's unused legacy method) would classify it
`'strong'`. -/
theorem C6_counterexample :
    (categoryData [mkPointsPlayer "a" 5] ["a"] none none .points).team_total = 5
    ∧ (categoryData [mkPointsPlayer "a" 5] ["a"] none none .points).status = .average
    ∧ categoryStatusLegacy 5 5 false = .strong
    ∧ Status.average ≠ Status.strong := by
  refine ⟨by with_unfolding_all decide, by with_unfolding_all decide, by decide, by decide⟩

/-- Claim C7 (amended): with fewer than `min_players` roster entries,
`detect_punt_strategies` makes no determination and returns empty
punt-candidate and recommendation lists — but with strategy confidence
`'low'`, not `'none'`; being a total function, it raises nothing. -/
theorem C7_insufficient_data (pool : List PlayerRecord) (roster_ids : List String)
    (ctx : Option (List (ℕ × List String))) (uid : Option ℕ) (min_players : ℕ)
    (h : roster_ids.length < min_players) :
    detect_punt_strategies pool roster_ids ctx uid min_players
      = { punt_categories := []
          punt_recommendations := []
          strategy_confidence := .low } := by
  unfold detect_punt_strategies
  rw [if_pos h]

theorem C7_witness :
    ([] : List String).length < 3
    ∧ detect_punt_strategies [] [] none none 3
        = { punt_categories := []
            punt_recommendations := []
            strategy_confidence := .low } :=
  ⟨by decide, C7_insufficient_data [] [] none none 3 (by decide)⟩

/-- Claim C7 (counterexample): on an empty roster (fewer than the default 3 players)
the returned strategy confidence is `'low'`, not the claimed `'none'`. -/
theorem C7_counterexample :
    (detect_punt_strategies [] [] none none 3).strategy_confidence = .low
    ∧ Confidence.low ≠ Confidence.nocall := by
  refine ⟨by decide, by decide⟩

/-- Claim C10: `advance_pick` changes only `round`, `draft_order` and
`current_pick_team` (all other fields are returned unchanged), and
`draft_player` changes only the chosen team's roster, the drafted list and
the status message (round, order, current team, and every other team's roster
are unchanged). -/
theorem C10_frame_conditions (s : DraftState) (pid : String) (tid : ℕ) (nm : String) :
    (s.advance_pick.num_teams = s.num_teams
      ∧ s.advance_pick.draft_position = s.draft_position
      ∧ s.advance_pick.roster_size = s.roster_size
      ∧ s.advance_pick.drafted_players = s.drafted_players
      ∧ s.advance_pick.team_rosters = s.team_rosters
      ∧ s.advance_pick.user_team_id = s.user_team_id
      ∧ s.advance_pick.complete = s.complete
      ∧ s.advance_pick.status_message = s.status_message)
    ∧ ((s.draft_player pid tid nm).round = s.round
      ∧ (s.draft_player pid tid nm).draft_order = s.draft_order
      ∧ (s.draft_player pid tid nm).current_pick_team = s.current_pick_team
      ∧ (s.draft_player pid tid nm).num_teams = s.num_teams
      ∧ (s.draft_player pid tid nm).draft_position = s.draft_position
      ∧ (s.draft_player pid tid nm).roster_size = s.roster_size
      ∧ (s.draft_player pid tid nm).user_team_id = s.user_team_id
      ∧ (s.draft_player pid tid nm).complete = s.complete
      ∧ ∀ u : ℕ, u ≠ tid → (s.draft_player pid tid nm).team_rosters u = s.team_rosters u) := by
  constructor
  · unfold DraftState.advance_pick
    by_cases h : List.indexOf s.current_pick_team s.draft_order + 1 < s.draft_order.length <;>
      simp [h]
  · refine ⟨rfl, rfl, rfl, rfl, rfl, rfl, rfl, rfl, fun u hu => ?_⟩
    exact draft_player_rosters_other s pid tid u nm hu

theorem C10_witness :
    ((DraftState.init 2 1 13).draft_player "p" 1 "").team_rosters 2
      = (DraftState.init 2 1 13).team_rosters 2
    ∧ (DraftState.init 2 1 13).advance_pick.drafted_players
      = (DraftState.init 2 1 13).drafted_players := by
  have h := C10_frame_conditions (DraftState.init 2 1 13) "p" 1 ""
  obtain ⟨⟨-, -, -, h4, -, -, -, -⟩, ⟨-, -, -, -, -, -, -, -, h9⟩⟩ := h
  exact ⟨h9 2 (by decide), h4⟩

/-- Claim C2: the serpentine invariant — from any well-formed state (duplicate-free
snake order containing the current team, `round = 1`, order of length
`num_teams`), `2 * num_teams` consecutive `advance_pick()` calls restore the
team on the clock and the snake order and leave `round = 3`; and the concrete
four-team scenario: after 4 calls the order is `[4,3,2,1]` with team 4 picking,
after 8 the order is `[1,2,3,4]` again with team 1 picking in round 3. -/
theorem C2_serpentine_invariant (s : DraftState) (hn : s.draft_order.Nodup)
    (hm : s.current_pick_team ∈ s.draft_order)
    (hr : s.round = 1) (hN : s.draft_order.length = s.num_teams) :
    DraftState.advance_pick^[2 * s.num_teams] s = { s with round := 3 }
    ∧ (DraftState.advance_pick^[4] (DraftState.init 4 1 13)).draft_order = [4, 3, 2, 1]
    ∧ (DraftState.advance_pick^[4] (DraftState.init 4 1 13)).current_pick_team = 4
    ∧ (DraftState.advance_pick^[8] (DraftState.init 4 1 13)).draft_order = [1, 2, 3, 4]
    ∧ (DraftState.advance_pick^[8] (DraftState.init 4 1 13)).current_pick_team = 1
    ∧ (DraftState.advance_pick^[8] (DraftState.init 4 1 13)).round = 3 := by
  refine ⟨?_, by decide, by decide, by decide, by decide, by decide⟩
  rw [show 2 * s.num_teams = 2 * s.draft_order.length by rw [hN],
    iterate_two_rounds s hn hm, hr]

theorem C2_witness :
    (DraftState.init 4 1 13).draft_order.Nodup
    ∧ (DraftState.init 4 1 13).current_pick_team ∈ (DraftState.init 4 1 13).draft_order
    ∧ (DraftState.init 4 1 13).round = 1
    ∧ DraftState.advance_pick^[2 * (DraftState.init 4 1 13).num_teams] (DraftState.init 4 1 13)
        = { DraftState.init 4 1 13 with round := 3 } :=
  ⟨by decide, by decide, by decide,
    (C2_serpentine_invariant (DraftState.init 4 1 13)
      (by decide) (by decide) (by decide) (by decide)).1⟩

/-- Claim C3 (counterexample): because `draft_player` never validates, the state in
which team 1 drafted `p1` twice is reachable by record-pick steps from the
initial empty state, and there `p1` appears twice in the drafted list — the
claimed invariant fails for unrestricted reachability. -/
theorem C3_counterexample :
    Reachable (((DraftState.init 2 1 13).draft_player "p1" 1 "").draft_player "p1" 1 "")
    ∧ ((((DraftState.init 2 1 13).draft_player "p1" 1 "").draft_player "p1" 1
        "").drafted_players.count "p1") = 2 := by
  constructor
  · exact Reachable.draft "p1" 1 ""
      (Reachable.draft "p1" 1 "" (Reachable.init 2 1 13) (by decide) (by decide))
      (by decide) (by decide)
  · decide

/-- Claim C3 (amended): in every state reachable from the initial empty state by
`advance_pick` steps and by `draft_player` steps that pick a *not yet drafted*
player for a team of the dict, every drafted id appears exactly once in the
global drafted list and with total multiplicity one across the team rosters,
and the roster lengths sum to the drafted-list length. -/
theorem C3_roster_exclusivity (s : DraftState) (h : ReachableFresh s) :
    (∀ pid ∈ s.drafted_players,
      s.drafted_players.count pid = 1 ∧ rosterCountSum s pid = 1)
    ∧ rosterLengthSum s = s.drafted_players.length := by
  obtain ⟨i1, i2, i3⟩ := draftInvariant_reachableFresh h
  refine ⟨fun pid hp => ?_, i3⟩
  have hc := List.count_eq_one_of_mem i2 hp
  exact ⟨hc, by rw [i1 pid, hc]⟩

theorem C3_witness :
    ReachableFresh (((DraftState.init 2 1 13).draft_player "a" 1 "").draft_player "b" 2 "")
    ∧ rosterLengthSum (((DraftState.init 2 1 13).draft_player "a" 1 "").draft_player "b" 2 "")
        = ((((DraftState.init 2 1 13).draft_player "a" 1 "").draft_player "b" 2
            "").drafted_players).length
    ∧ ((((DraftState.init 2 1 13).draft_player "a" 1 "").draft_player "b" 2
        "").drafted_players).count "a" = 1 := by
  have hreach :
      ReachableFresh (((DraftState.init 2 1 13).draft_player "a" 1 "").draft_player "b" 2 "") :=
    ReachableFresh.draft "b" 2 ""
      (ReachableFresh.draft "a" 1 "" (ReachableFresh.init 2 1 13)
        (by decide) (by decide) (by decide))
      (by decide) (by decide) (by decide)
  have h := C3_roster_exclusivity _ hreach
  exact ⟨hreach, h.2, (h.1 "a" (by decide)).1⟩

lemma scoreFoldAux (statuses : Category → Status) (l : List Category) (a : ℚ) (b c : ℕ) :
    l.foldl
      (fun acc x =>
        match statuses x with
        | .strong => (acc.1 + 8, acc.2.1 + 1, acc.2.2)
        | .average => (acc.1 + 3, acc.2.1, acc.2.2)
        | .weak => (acc.1 + 0, acc.2.1, acc.2.2 + 1))
      (a, b, c)
    = (a + 8 * ((l.filter fun x => statuses x == .strong).length : ℚ)
        + 3 * ((l.filter fun x => statuses x == .average).length : ℚ),
       b + (l.filter fun x => statuses x == .strong).length,
       c + (l.filter fun x => statuses x == .weak).length) := by
  induction l generalizing a b c with
  | nil => simp
  | cons x l ih =>
    rw [List.foldl_cons]
    cases hx : statuses x <;>
      simp only [hx, ih, List.filter_cons, beq_iff_eq, reduceCtorEq, if_true, if_false,
        decide_eq_true_eq] <;>
      refine Prod.ext ?_ (Prod.ext ?_ ?_) <;>
      simp <;> ring

lemma scoreFold_spec (statuses : Category → Status) :
    categoryScoreFold statuses
      = (8 * ((allCategories.filter fun x => statuses x == .strong).length : ℚ)
          + 3 * ((allCategories.filter fun x => statuses x == .average).length : ℚ),
         (allCategories.filter fun x => statuses x == .strong).length,
         (allCategories.filter fun x => statuses x == .weak).length) := by
  rw [categoryScoreFold, scoreFoldAux]
  simp

/-- Claim C9: the projection final score is `base 35` plus `+8` per strong and `+3`
per average category, plus the punt bonus (high `+6`, medium `+3`), plus the
strong-team bonus (`+10`/`+5`/`+2` at `≥7`/`≥5`/`≥3` strong), minus the
construction penalty (risk high `30`, medium `20`, low `10`, plus `15` more at
`≥6` weak categories else `8` more at `≥4`), clamped to `[0, 100]`; the grade
is the fixed banding of the final score, with `90 ↦ A+` and `89.9 ↦ A`. -/
theorem C9_projection_score_and_grade (statuses : Category → Status)
    (punt_confidence : Confidence) (risk_level : RiskLevel) :
    ((calculate_team_projection statuses punt_confidence risk_level).final_score
      = max 0 (min 100
          (35
            + (8 * ((allCategories.filter fun x => statuses x == .strong).length : ℚ)
               + 3 * ((allCategories.filter fun x => statuses x == .average).length : ℚ))
            + (if punt_confidence = .high then 6
               else if punt_confidence = .medium then 3 else 0)
            + (if 7 ≤ (allCategories.filter fun x => statuses x == .strong).length then (10 : ℚ)
               else if 5 ≤ (allCategories.filter fun x => statuses x == .strong).length then 5
               else if 3 ≤ (allCategories.filter fun x => statuses x == .strong).length then 2
               else 0)
            - ((if risk_level = .high then (30 : ℚ)
                else if risk_level = .medium then 20
                else if risk_level = .low then 10 else 0)
               + (if 6 ≤ (allCategories.filter fun x => statuses x == .weak).length then (15 : ℚ)
                  else if 4 ≤ (allCategories.filter fun x => statuses x == .weak).length then 8
                  else 0)))))
    ∧ (calculate_team_projection statuses punt_confidence risk_level).grade
        = gradeOf (calculate_team_projection statuses punt_confidence risk_level).final_score
    ∧ gradeOf 90 = "A+"
    ∧ gradeOf (899 / 10) = "A" := by
  refine ⟨?_, rfl, by with_unfolding_all decide, by with_unfolding_all decide⟩
  unfold calculate_team_projection
  rw [scoreFold_spec]

lemma foldl_add_const {α : Type} (l : List α) (a q : ℚ) :
    l.foldl (fun acc _ => acc + q) a = a + l.length * q := by
  induction l generalizing a with
  | nil => simp
  | cons x l ih =>
    rw [List.foldl_cons, ih, List.length_cons]
    push_cast
    ring

/-- A candidate strong in two non-punted categories (points and rebounds),
giving a non-punt strength of 6. -/
def strongCandidate : PlayerRecord :=
  { mkPointsPlayer "x" 3 with z_rebounds := 3, total_z_score := 6 }

/-- Claim C8: the punt-fit signal award is accumulated once per punted category that
carries data — `punt_fit_bonus` equals the number of punted categories times
the +15/+10/+5 award — so with two punted categories (e.g. FG% and FT%) a
strong-fit candidate receives +30, not the single +15 the claim describes. -/
theorem C8_punt_fit_award_per_category :
    (∀ (p : PlayerRecord) (punt_categories : List Category),
      punt_fit_bonus p punt_categories
        = (punt_categories.length : ℚ)
            * (if 5 < non_punt_strength p punt_categories then 15
               else if 3 < non_punt_strength p punt_categories then 10
               else if 1 < non_punt_strength p punt_categories then 5 else 0))
    ∧ non_punt_strength strongCandidate [.fg_pct, .ft_pct] = 6
    ∧ punt_fit_bonus strongCandidate [.fg_pct, .ft_pct] = 30 := by
  refine ⟨fun p punt_categories => ?_, by with_unfolding_all decide,
    by with_unfolding_all decide⟩
  rw [punt_fit_bonus, foldl_add_const]
  ring

lemma insertStable_perm {α : Type} (lt : α → α → Bool) (a : α) (l : List α) :
    (insertStable lt a l).Perm (a :: l) := by
  induction l with
  | nil => exact List.Perm.refl _
  | cons b bs ih =>
    unfold insertStable
    split
    · exact List.Perm.refl _
    · exact (ih.cons b).trans (List.Perm.swap a b bs)

lemma pySort_aux_perm {α : Type} (lt : α → α → Bool) (l : List α) :
    ∀ acc : List α, (l.foldl (fun acc a => insertStable lt a acc) acc).Perm (acc ++ l) := by
  induction l with
  | nil => intro acc; simp
  | cons a l ih =>
    intro acc
    rw [List.foldl_cons]
    refine (ih (insertStable lt a acc)).trans ?_
    refine (List.Perm.append_right l (insertStable_perm lt a acc)).trans ?_
    exact List.perm_middle.symm

lemma pySort_perm {α : Type} (lt : α → α → Bool) (l : List α) : (pySort lt l).Perm l := by
  simpa using pySort_aux_perm lt l []

lemma mem_allCategories (c : Category) : c ∈ allCategories := by
  cases c <;> decide

lemma puntConfidenceFor_high_iff (data : CategoryData) (df : List PlayerRecord) (c : Category) :
    puntConfidenceFor data df c = some .high
      ↔ (rankTruthy data.rank = true
          ∧ 6 ≤ data.total_teams
          ∧ (data.total_teams : ℚ) * (80 / 100) ≤ ((data.rank.getD 0 : ℕ) : ℚ)
          ∧ data.team_total < -1) := by
  unfold puntConfidenceFor
  split_ifs <;> simp_all [Bool.and_eq_true, decide_eq_true_eq]

lemma high_candidate_iff (pool : List PlayerRecord) (roster_ids : List String)
    (ctx : Option (List (ℕ × List String))) (uid : Option ℕ) (c : Category) :
    (∃ cand ∈ puntCandidatesRaw pool roster_ids ctx uid,
        cand.category = c ∧ cand.confidence = .high)
      ↔ puntConfidenceFor (categoryData pool roster_ids ctx uid c)
          (rosterFilter pool roster_ids) c = some .high := by
  constructor
  · rintro ⟨cand, hmem, hcat, hconf⟩
    rw [puntCandidatesRaw, List.mem_filterMap] at hmem
    obtain ⟨x, -, hf⟩ := hmem
    rw [Option.map_eq_some'] at hf
    obtain ⟨conf, hsome, hbuild⟩ := hf
    have hx : x = c := by rw [← hcat, ← hbuild]
    have hc : conf = .high := by rw [← hconf, ← hbuild]
    rw [← hx, hsome, hc]
  · intro h
    refine ⟨{ category := c, confidence := .high,
              team_total := (categoryData pool roster_ids ctx uid c).team_total,
              rank := (categoryData pool roster_ids ctx uid c).rank }, ?_, rfl, rfl⟩
    rw [puntCandidatesRaw, List.mem_filterMap]
    refine ⟨c, mem_allCategories c, ?_⟩
    show Option.map _ (puntConfidenceFor (categoryData pool roster_ids ctx uid c)
      (rosterFilter pool roster_ids) c) = _
    rw [h]
    rfl

/-- Claim C4 (amended): once the roster reaches the minimum size, a category is a
punt candidate with confidence `'high'` if and only if league ranking data is
available for the team (`team_rank` truthy) with at least 6 teams having
player data, the team's rank is at least `0.80 × total_teams`, and the team's
category total is *less than −1* (the source requires `team_total < -1`, not
merely a negative total). -/
theorem C4_high_confidence_iff (pool : List PlayerRecord) (roster_ids : List String)
    (ctx : Option (List (ℕ × List String))) (uid : Option ℕ) (min_players : ℕ)
    (h : min_players ≤ roster_ids.length) (c : Category) :
    (∃ cand ∈ (detect_punt_strategies pool roster_ids ctx uid min_players).punt_categories,
        cand.category = c ∧ cand.confidence = .high)
      ↔ (rankTruthy (categoryData pool roster_ids ctx uid c).rank = true
          ∧ 6 ≤ (categoryData pool roster_ids ctx uid c).total_teams
          ∧ ((categoryData pool roster_ids ctx uid c).total_teams : ℚ) * (80 / 100)
              ≤ (((categoryData pool roster_ids ctx uid c).rank.getD 0 : ℕ) : ℚ)
          ∧ (categoryData pool roster_ids ctx uid c).team_total < -1) := by
  unfold detect_punt_strategies
  rw [if_neg (by omega : ¬ roster_ids.length < min_players)]
  rw [← puntConfidenceFor_high_iff _ (rosterFilter pool roster_ids) c,
    ← high_candidate_iff pool roster_ids ctx uid c]
  constructor
  · rintro ⟨cand, hmem, hprop⟩
    exact ⟨cand, (pySort_perm puntSortBefore _).mem_iff.1 hmem, hprop⟩
  · rintro ⟨cand, hmem, hprop⟩
    exact ⟨cand, (pySort_perm puntSortBefore _).mem_iff.2 hmem, hprop⟩

theorem C4_witness :
    3 ≤ leagueUserRoster.length
    ∧ ((∃ cand ∈ (detect_punt_strategies (leaguePool (-3/2)) leagueUserRoster
            (some leagueRosters) (some 1) 3).punt_categories,
          cand.category = Category.points ∧ cand.confidence = .high)
        ↔ (rankTruthy (categoryData (leaguePool (-3/2)) leagueUserRoster
              (some leagueRosters) (some 1) Category.points).rank = true
            ∧ 6 ≤ (categoryData (leaguePool (-3/2)) leagueUserRoster
                (some leagueRosters) (some 1) Category.points).total_teams
            ∧ ((categoryData (leaguePool (-3/2)) leagueUserRoster
                (some leagueRosters) (some 1) Category.points).total_teams : ℚ) * (80 / 100)
                ≤ (((categoryData (leaguePool (-3/2)) leagueUserRoster
                    (some leagueRosters) (some 1) Category.points).rank.getD 0 : ℕ) : ℚ)
            ∧ (categoryData (leaguePool (-3/2)) leagueUserRoster
                (some leagueRosters) (some 1) Category.points).team_total < -1)) :=
  ⟨by decide,
    C4_high_confidence_iff (leaguePool (-3/2)) leagueUserRoster
      (some leagueRosters) (some 1) 3 (by decide) Category.points⟩

/-- Claim C4 (counterexample): in a ten-team league where the user team is ranked
10th of 10 in points (rank `10 ≥ 0.80 × 10`) with a *negative* total of −1/2,
the claim demands a high-confidence punt mark, but the source produces no
punt candidate at all (its criterion is `team_total < -1`). -/
theorem C4_counterexample :
    (categoryData (leaguePool (-1/2)) leagueUserRoster (some leagueRosters) (some 1)
        Category.points).rank = some 10
    ∧ (categoryData (leaguePool (-1/2)) leagueUserRoster (some leagueRosters) (some 1)
        Category.points).total_teams = 10
    ∧ (categoryData (leaguePool (-1/2)) leagueUserRoster (some leagueRosters) (some 1)
        Category.points).team_total = -1/2
    ∧ (categoryData (leaguePool (-1/2)) leagueUserRoster (some leagueRosters) (some 1)
        Category.points).team_total < 0
    ∧ (detect_punt_strategies (leaguePool (-1/2)) leagueUserRoster (some leagueRosters)
        (some 1) 3).punt_categories = [] := by
  refine ⟨by with_unfolding_all decide, by with_unfolding_all decide,
    by with_unfolding_all decide, by with_unfolding_all decide,
    by with_unfolding_all decide⟩

lemma strategyConfidenceOf_iff (cands : List PuntCandidate) :
    (strategyConfidenceOf cands = .high
      ↔ 2 ≤ (cands.filter fun p => p.confidence == .high).length)
    ∧ (strategyConfidenceOf cands = .medium
      ↔ ((cands.filter fun p => p.confidence == .high).length = 1
          ∧ 1 ≤ (cands.filter fun p => p.confidence == .medium).length))
    ∧ (strategyConfidenceOf cands = .low
      ↔ ((cands.filter fun p => p.confidence == .high).length = 1
          ∧ (cands.filter fun p => p.confidence == .medium).length = 0))
    ∧ (strategyConfidenceOf cands = .nocall
      ↔ (cands.filter fun p => p.confidence == .high).length = 0) := by
  simp only [strategyConfidenceOf]
  split_ifs with h1 h2 h3
  · exact ⟨⟨fun _ => h1, fun _ => rfl⟩,
      ⟨fun h => absurd h (by decide), fun hh => absurd h1 (by omega)⟩,
      ⟨fun h => absurd h (by decide), fun hh => absurd h1 (by omega)⟩,
      ⟨fun h => absurd h (by decide), fun hh => absurd h1 (by omega)⟩⟩
  · rw [Bool.and_eq_true, decide_eq_true_eq, decide_eq_true_eq] at h2
    exact ⟨⟨fun h => absurd h (by decide), fun hh => absurd hh h1⟩,
      ⟨fun _ => ⟨by omega, h2.2⟩, fun _ => rfl⟩,
      ⟨fun h => absurd h (by decide), fun hh => absurd hh (by omega)⟩,
      ⟨fun h => absurd h (by decide), fun hh => absurd hh (by omega)⟩⟩
  · rw [Bool.and_eq_true, decide_eq_true_eq, decide_eq_true_eq] at h2
    exact ⟨⟨fun h => absurd h (by decide), fun hh => absurd hh h1⟩,
      ⟨fun h => absurd h (by decide), fun hh => absurd hh (by omega)⟩,
      ⟨fun _ => by omega, fun _ => rfl⟩,
      ⟨fun h => absurd h (by decide), fun hh => absurd h3 (by omega)⟩⟩
  · rw [Bool.and_eq_true, decide_eq_true_eq, decide_eq_true_eq] at h2
    exact ⟨⟨fun h => absurd h (by decide), fun hh => absurd hh (by omega)⟩,
      ⟨fun h => absurd h (by decide), fun hh => absurd hh (by omega)⟩,
      ⟨fun h => absurd h (by decide), fun hh => absurd hh (by omega)⟩,
      ⟨fun _ => by omega, fun _ => rfl⟩⟩

/-- Claim C5 (amended): once the roster reaches the minimum size, the overall
strategy confidence is `'high'` exactly when at least 2 candidate categories
reach `'high'`; `'medium'` exactly when exactly 1 reaches `'high'` and at
least 1 is `'medium'`; `'low'` exactly when exactly 1 reaches `'high'` and
none is `'medium'` (a single high alone is `'low'`, not `'medium'`); and
`'none'` exactly when no category reaches `'high'` — in particular,
medium-only candidates yield `'none'`, not `'low'`. -/
theorem C5_strategy_confidence_tiers (pool : List PlayerRecord) (roster_ids : List String)
    (ctx : Option (List (ℕ × List String))) (uid : Option ℕ) (min_players : ℕ)
    (h : min_players ≤ roster_ids.length) :
    ((detect_punt_strategies pool roster_ids ctx uid min_players).strategy_confidence = .high
      ↔ 2 ≤ ((detect_punt_strategies pool roster_ids ctx uid min_players).punt_categories.filter
          fun p => p.confidence == .high).length)
    ∧ ((detect_punt_strategies pool roster_ids ctx uid min_players).strategy_confidence = .medium
      ↔ (((detect_punt_strategies pool roster_ids ctx uid min_players).punt_categories.filter
            fun p => p.confidence == .high).length = 1
          ∧ 1 ≤ ((detect_punt_strategies pool roster_ids ctx uid min_players).punt_categories.filter
              fun p => p.confidence == .medium).length))
    ∧ ((detect_punt_strategies pool roster_ids ctx uid min_players).strategy_confidence = .low
      ↔ (((detect_punt_strategies pool roster_ids ctx uid min_players).punt_categories.filter
            fun p => p.confidence == .high).length = 1
          ∧ ((detect_punt_strategies pool roster_ids ctx uid min_players).punt_categories.filter
              fun p => p.confidence == .medium).length = 0))
    ∧ ((detect_punt_strategies pool roster_ids ctx uid min_players).strategy_confidence = .nocall
      ↔ ((detect_punt_strategies pool roster_ids ctx uid min_players).punt_categories.filter
          fun p => p.confidence == .high).length = 0) := by
  have hni : ¬ roster_ids.length < min_players := by omega
  have hsc : (detect_punt_strategies pool roster_ids ctx uid min_players).strategy_confidence
      = strategyConfidenceOf (pySort puntSortBefore (puntCandidatesRaw pool roster_ids ctx uid)) := by
    unfold detect_punt_strategies
    rw [if_neg hni]
  have hpc : (detect_punt_strategies pool roster_ids ctx uid min_players).punt_categories
      = pySort puntSortBefore (puntCandidatesRaw pool roster_ids ctx uid) := by
    unfold detect_punt_strategies
    rw [if_neg hni]
  rw [hsc, hpc]
  exact strategyConfidenceOf_iff _

theorem C5_witness :
    3 ≤ leagueUserRoster.length
    ∧ ((detect_punt_strategies (leaguePool (-3/2)) leagueUserRoster (some leagueRosters)
          (some 1) 3).strategy_confidence = .low
        ↔ (((detect_punt_strategies (leaguePool (-3/2)) leagueUserRoster (some leagueRosters)
              (some 1) 3).punt_categories.filter fun p => p.confidence == .high).length = 1
            ∧ ((detect_punt_strategies (leaguePool (-3/2)) leagueUserRoster (some leagueRosters)
                (some 1) 3).punt_categories.filter
                fun p => p.confidence == .medium).length = 0)) :=
  ⟨by decide,
    (C5_strategy_confidence_tiers (leaguePool (-3/2)) leagueUserRoster
      (some leagueRosters) (some 1) 3 (by decide)).2.2.1⟩

/-- Claim C5 (counterexample): a roster with exactly one high-confidence punt
candidate and no medium candidates — where the claim prescribes overall
`'medium'` ("at least 1 high alone") — receives `'low'` from the source. -/
theorem C5_counterexample :
    ((detect_punt_strategies (leaguePool (-3/2)) leagueUserRoster (some leagueRosters)
        (some 1) 3).punt_categories.filter fun p => p.confidence == .high).length = 1
    ∧ ((detect_punt_strategies (leaguePool (-3/2)) leagueUserRoster (some leagueRosters)
        (some 1) 3).punt_categories.filter fun p => p.confidence == .medium).length = 0
    ∧ (detect_punt_strategies (leaguePool (-3/2)) leagueUserRoster (some leagueRosters)
        (some 1) 3).strategy_confidence = .low
    ∧ Confidence.low ≠ Confidence.medium := by
  refine ⟨by with_unfolding_all decide, by with_unfolding_all decide,
    by with_unfolding_all decide, by decide⟩

end DraftLogic
